import Mathlib

/-!
Verification development for the `isolator` application sandboxing tool.

The repository compiles a bubblewrap (`bwrap`) argument list from an
`IsolationConfig`: filesystem binds (`FilesystemManager.setup`), display
binds (`DisplayManager`), namespace/capability flags (`SecurityManager`,
`EnhancedSecurityManager`), rlimit/cgroup directives (`ResourceManager`),
and the resolved command.  The definitions below are a shallow embedding of
that code.  Host-dependent facts (`os.path.exists`, `which`, `os.walk`,
environment variables, uid, home directory) are threaded in as an explicit
`Host` snapshot; the two `tempfile.mkdtemp` calls a compilation can make are
modelled by two explicit fresh-name inputs.
-/

deriving instance DecidableEq for Except

/-- Python exceptions that the modelled code can raise. -/
inductive PyError where
  | valueError (msg : String)
  | indexError
  | attributeError (msg : String)
  | nameError (msg : String)
deriving DecidableEq, Repr

/-- `DisplayServer` from `enums.py`. -/
inductive DisplayServer where
  | X11
  | WAYLAND
  | UNKNOWN
deriving DecidableEq, BEq, Repr

/-- `IsolationLevel` from `enums.py`. -/
inductive IsolationLevel where
  | MINIMAL
  | STANDARD
  | STRICT
deriving DecidableEq, BEq, Repr

/-- `ApplicationProfile` from `enums.py`. -/
inductive ApplicationProfile where
  | BASIC
  | BROWSER
  | MULTIMEDIA
  | DEVELOPMENT
  | GRAPHICS
deriving DecidableEq, BEq, Repr

/-- `ResourceLimits` from `managers/resource_manager.py` (the dataclass in
`config/base.py` is field-for-field identical).  All fields default to
`None`. -/
structure ResourceLimits where
  memory_limit : Option String := none
  cpu_limit : Option Int := none
  io_weight : Option Int := none
  max_processes : Option Int := none
  max_file_size : Option String := none
  max_files : Option Int := none
deriving DecidableEq, Repr

/-- `ProfileConfig` from `config/profiles.py`.  The Python
`resource_limits: Optional[Dict[str, str]]` is modelled directly as the
`ResourceLimits` it is converted into by `ApplicationIsolator.__init__`
(`ResourceLimits(**profile_config.resource_limits)`). -/
structure ProfileConfig where
  name : String
  mounts : List String
  devices : List String
  capabilities : List String
  env_vars : List (String × String)
  seccomp_profile : Option String := none
  network_ports : Option (List Int) := none
  resource_limits : Option ResourceLimits := none
deriving DecidableEq, Repr

/-- `IsolationConfig` from `config/base.py` (after `__post_init__`
normalisation). -/
structure IsolationConfig where
  appCommand : List String
  persistDir : Option String := none
  networkEnabled : Bool := true
  guiEnabled : Bool := true
  isolationLevel : IsolationLevel := .STANDARD
  tmpDir : Option String := none
  overlayEnabled : Bool := true
  debug : Bool := false
  profile : Option ApplicationProfile := none
  resourceLimits : Option ResourceLimits := none
deriving DecidableEq, Repr

/-- The host-filesystem / process-environment snapshot a compilation reads.
`pathExists` is `os.path.exists`, `isExec` is `os.access(·, os.X_OK)`,
`whichCmd` is the (stripped) output of `subprocess.check_output(["which", ·])`
(`none` when `which` fails), `walkFind dir bin` is the first executable match
that the `os.walk(dir)` loop of `FilesystemManager.resolve_command` would
find for `bin` under `dir`, `env` is `os.environ`, `home` is
`os.path.expanduser("~")` and `uid` is `os.getuid()`. -/
structure Host where
  pathExists : String → Bool
  isExec : String → Bool
  whichCmd : String → Option String
  walkFind : String → String → Option String
  env : String → Option String
  home : String
  uid : Nat

/-- Python truthiness of an optional int (`None` and `0` are falsy). -/
def optTruthyInt (o : Option Int) : Bool :=
  match o with
  | none => false
  | some n => !(n == 0)

/-- Python truthiness of an optional string (`None` and `""` are falsy). -/
def optTruthyStr (o : Option String) : Bool :=
  match o with
  | none => false
  | some s => !s.isEmpty

/-- Python truthiness of an environment lookup (`os.environ.get` returning
`None` or the empty string is falsy). -/
def envTruthy (o : Option String) : Bool :=
  match o with
  | none => false
  | some s => !s.isEmpty

/-- Whitespace as stripped by Python `str.strip()` (ASCII cases). -/
def isSpaceChar (c : Char) : Bool :=
  c == ' ' || c == '\t' || c == '\n' || c == '\x0d'

/-- `str.strip()` on a character list. -/
def trimChars (cs : List Char) : List Char :=
  ((cs.dropWhile isSpaceChar).reverse.dropWhile isSpaceChar).reverse

/-- Decimal digit test. -/
def isDigitChar (c : Char) : Bool :=
  '0' ≤ c && c ≤ '9'

/-- Value of a digit string. -/
def digitsToNat (cs : List Char) : Nat :=
  cs.foldl (fun acc c => acc * 10 + (c.toNat - '0'.toNat)) 0

/-- An exact decimal number `(-1)^neg * num / den`, with `den` a positive
power of ten.  This represents the value of a Python `float()` literal
exactly; the spec's size strings are all exactly representable, so binary
float rounding is not modelled. -/
structure DecNum where
  neg : Bool
  num : Nat
  den : Nat
deriving DecidableEq, Repr

/-- Unsigned part of Python `float()` on a plain decimal literal:
`digits`, `digits.digits`, `digits.` or `.digits` (at least one digit).
Exponents, `inf`/`nan` and underscores are not exercised by this
repository's size strings and are not modelled. -/
def parseUnsignedDecimal (cs : List Char) : Option (Nat × Nat) :=
  let ip := cs.takeWhile isDigitChar
  let rest := cs.dropWhile isDigitChar
  match rest with
  | [] => if ip.isEmpty then none else some (digitsToNat ip, 1)
  | c :: frac =>
    if c == '.' then
      if frac.all isDigitChar && !(ip.isEmpty && frac.isEmpty) then
        some (digitsToNat ip * 10 ^ frac.length + digitsToNat frac, 10 ^ frac.length)
      else none
    else none

/-- Python `float()` on a decimal literal: strips surrounding whitespace,
then an optional sign followed by an unsigned decimal. -/
def parseDecimal (cs : List Char) : Option DecNum :=
  let t := trimChars cs
  match t with
  | [] => none
  | c :: rest =>
    if c == '+' then (parseUnsignedDecimal rest).map (fun p => ⟨false, p.1, p.2⟩)
    else if c == '-' then (parseUnsignedDecimal rest).map (fun p => ⟨true, p.1, p.2⟩)
    else (parseUnsignedDecimal t).map (fun p => ⟨false, p.1, p.2⟩)

/-- `int(number * unit)` for a parsed decimal `number` and a `Nat` unit:
Python `int()` truncates toward zero, which for `± (num * u) / den` is
`Nat` floor division of the magnitude with the sign reapplied. -/
def intTrunc (d : DecNum) (u : Nat) : Int :=
  if d.neg then -(Int.ofNat (d.num * u / d.den)) else Int.ofNat (d.num * u / d.den)

namespace ResourceManager

/-- The `units` dictionary of `ResourceManager._parse_size`, looked up at the
(already uppercased) final character. -/
def unitsVal (c : Char) : Option Nat :=
  if c == 'B' then some 1
  else if c == 'K' then some 1024
  else if c == 'M' then some (1024 * 1024)
  else if c == 'G' then some (1024 * 1024 * 1024)
  else if c == 'T' then some (1024 * 1024 * 1024 * 1024)
  else none

/-- `ResourceManager._parse_size` on a character list.
`size = size_str.strip()`; `size[-1]` on an empty string raises `IndexError`
(modelled by the `getLast? = none` branch); an unrecognized unit raises
`ValueError("Invalid size unit in …")`; a `float()` failure on `size[:-1]`
raises `ValueError("Invalid size format: …")`; otherwise the result is
`int(number * units[unit])`. -/
def parse_size_chars (cs : List Char) : Except PyError Int :=
  let size := trimChars cs
  match size.getLast? with
  | none => .error PyError.indexError
  | some last =>
    match unitsVal last.toUpper with
    | none => .error (PyError.valueError ("Invalid size unit in " ++ String.mk cs))
    | some u =>
      match parseDecimal size.dropLast with
      | none => .error (PyError.valueError ("Invalid size format: " ++ String.mk cs))
      | some q => .ok (intTrunc q u)

/-- `ResourceManager._parse_size` on a Python string. -/
def parse_size (s : String) : Except PyError Int :=
  parse_size_chars s.data

end ResourceManager

/-- Is the first list a prefix of the second? -/
def charsStartWith : List Char → List Char → Bool
  | [], _ => true
  | _ :: _, [] => false
  | p :: ps, c :: cs => p == c && charsStartWith ps cs

/-- Python `str.startswith`. -/
def strStartsWith (s pre : String) : Bool :=
  charsStartWith pre.data s.data

/-- Python `str.endswith`. -/
def strEndsWith (s suf : String) : Bool :=
  charsStartWith suf.data.reverse s.data.reverse

/-- Does `l` start with the token sequence `pat`? -/
def startsWithSeq : List String → List String → Bool
  | [], _ => true
  | _ :: _, [] => false
  | p :: ps, x :: xs => p == x && startsWithSeq ps xs

/-- Does `pat` occur as a contiguous run inside `l`? -/
def containsSeq (pat : List String) : List String → Bool
  | [] => pat.isEmpty
  | x :: xs => startsWithSeq pat (x :: xs) || containsSeq pat xs

/-- `os.path.basename`: the component after the last slash. -/
def basename (p : String) : String :=
  String.mk (p.data.foldl (fun acc c => if c == '/' then [] else acc ++ [c]) [])

/-- `os.path.expanduser`: replace a leading `~` by the home directory. -/
def expand_user (home p : String) : String :=
  if strStartsWith p "~" then home ++ p.drop 1 else p

/-- `os.path.join` for the shapes this code produces (second component
relative unless it is absolute). -/
def joinRel (a b : String) : String :=
  if strStartsWith b "/" then b
  else if a == "" then b
  else if strEndsWith a "/" then a ++ b
  else a ++ "/" ++ b

namespace ResourceManager

/-- `ResourceManager._validate_cgroup_support`: `none` when `/sys/fs/cgroup`
is absent (in which case `self.cgroup_version` is never assigned), otherwise
version 2 when the `cgroup.controllers` marker exists, else version 1. -/
def cgroup_version (host : Host) : Option Nat :=
  if host.pathExists "/sys/fs/cgroup" then
    if host.pathExists "/sys/fs/cgroup/cgroup.controllers" then some 2 else some 1
  else none

/-- `ResourceManager._setup_cgroup`.  When `_validate_cgroup_support`
returned early (no cgroup filesystem), `self.cgroup_version` was never set
and reading it raises `AttributeError`. -/
def setup_cgroup (cgv : Option Nat) (l : ResourceLimits) : Except PyError (List String) :=
  match cgv with
  | none => .error (PyError.attributeError "ResourceManager object has no attribute cgroup_version")
  | some v =>
    if v == 2 then do
      let c1 := if optTruthyInt l.cpu_limit then
        ["--bind-data", toString (l.cpu_limit.getD 0), "/sys/fs/cgroup/cpu.max"] else []
      let c2 ← if optTruthyStr l.memory_limit then do
          let n ← parse_size (l.memory_limit.getD "")
          pure ["--bind-data", toString n, "/sys/fs/cgroup/memory.max"]
        else pure []
      let c3 := if optTruthyInt l.io_weight then
        ["--bind-data", toString (l.io_weight.getD 0), "/sys/fs/cgroup/io.weight"] else []
      pure (c1 ++ c2 ++ c3)
    else do
      let c1 := if optTruthyInt l.cpu_limit then
        ["--bind-data", toString (l.cpu_limit.getD 0 * 1000), "/sys/fs/cgroup/cpu/cpu.cfs_quota_us"] else []
      let c2 ← if optTruthyStr l.memory_limit then do
          let n ← parse_size (l.memory_limit.getD "")
          pure ["--bind-data", toString n, "/sys/fs/cgroup/memory/memory.limit_in_bytes"]
        else pure []
      pure (c1 ++ c2)

/-- `ResourceManager.get_resource_args`: rlimit directives for each supplied
limit, then the cgroup directives. -/
def get_resource_args (cgv : Option Nat) (l : ResourceLimits) : Except PyError (List String) := do
  let a1 := if optTruthyInt l.max_processes then
    ["--rlimit", "nproc=" ++ toString (l.max_processes.getD 0)] else []
  let a2 := if optTruthyInt l.max_files then
    ["--rlimit", "nofile=" ++ toString (l.max_files.getD 0)] else []
  let a3 ← if optTruthyStr l.max_file_size then do
      let n ← parse_size (l.max_file_size.getD "")
      pure ["--rlimit", "fsize=" ++ toString n]
    else pure []
  let a4 ← if optTruthyStr l.memory_limit then do
      let n ← parse_size (l.memory_limit.getD "")
      pure ["--rlimit", "as=" ++ toString n]
    else pure []
  let cg ← setup_cgroup cgv l
  pure (a1 ++ a2 ++ a3 ++ a4 ++ cg)

end ResourceManager

namespace ProfileManager

/-- `dict` assignment `self.profiles[profile.name] = profile`: overwrite an
existing key, otherwise append. -/
def insert_profile (m : List (String × ProfileConfig)) (p : ProfileConfig) :
    List (String × ProfileConfig) :=
  if m.any (fun kv => kv.1 == p.name) then
    m.map (fun kv => if kv.1 == p.name then (kv.1, p) else kv)
  else m ++ [(p.name, p)]

/-- `ProfileManager._load_profiles`.  Each list entry is the parse result of
one profile document (`none` models a document whose `yaml.safe_load` or
`ProfileConfig(**data)` raises).  The `except` handler executes
`logging.error(...)`, but `profiles.py` never imports `logging`, so the
handler itself raises `NameError`, aborting the whole load instead of
skipping the document. -/
def load_profiles : List (Option ProfileConfig) → List (String × ProfileConfig) →
    Except PyError (List (String × ProfileConfig))
  | [], acc => .ok acc
  | some p :: rest, acc => load_profiles rest (insert_profile acc p)
  | none :: _, _ => .error (PyError.nameError "name logging is not defined")

end ProfileManager

namespace SecurityManager

/-- Base namespace options of `SecurityManager.get_security_args`. -/
def base_security_args : List String :=
  ["--unshare-pid", "--unshare-ipc", "--unshare-uts", "--new-session", "--die-with-parent"]

/-- `SecurityManager._get_browser_security_args`. -/
def browser_security_args (host : Host) : List String :=
  ["--share-net", "--unshare-user-try", "--new-session", "--cap-add", "ALL",
   "--dev-bind", "/dev/shm", "/dev/shm", "--bind", "/tmp", "/tmp", "--bind", "/run", "/run"] ++
  (if host.pathExists "/usr/share/chromium/seccomp-filter.bpf" then
    ["--seccomp", "9", "/usr/share/chromium/seccomp-filter.bpf"] else [])

/-- `SecurityManager._get_default_security_args`. -/
def default_security_args (lvl : IsolationLevel) : List String :=
  ["--hostname", "isolated"] ++
  (match lvl with
   | .STRICT => ["--unshare-net", "--unshare-cgroup-try", "--unshare-user-try", "--cap-drop", "ALL"]
   | _ => [])

/-- Fixed `PATH` value assigned by the managers. -/
def fixedPath : String :=
  "/usr/local/sbin:/usr/local/bin:/usr/sbin:/usr/bin:/sbin:/bin"

/-- The environment-variable block of `SecurityManager.get_security_args`:
`PATH`, `HOME`, `USER`, `LANG`, `TERM` in dict order, each emitted only when
its value is non-empty. -/
def env_var_args (host : Host) : List String :=
  (([("PATH", fixedPath),
     ("HOME", host.home),
     ("USER", (host.env "USER").getD ""),
     ("LANG", (host.env "LANG").getD "C.UTF-8"),
     ("TERM", (host.env "TERM").getD "xterm-256color")] :
      List (String × String)).map
    (fun kv => if kv.2.isEmpty then [] else ["--setenv", kv.1, kv.2])).flatten

/-- `SecurityManager.get_security_args`: base options, then browser or
default profile options, then the environment block. -/
def get_security_args (lvl : IsolationLevel) (profile : Option ApplicationProfile)
    (host : Host) : List String :=
  base_security_args ++
  (if profile == some .BROWSER then browser_security_args host else default_security_args lvl) ++
  env_var_args host

/-- `SecurityManager.validate_security_config`: only `isinstance` checks,
always satisfied in this typed model. -/
def validate_security_config : Bool := true

end SecurityManager

namespace EnhancedSecurityManager

/-- `EnhancedSecurityManager._get_base_security_args`. -/
def base_security_args : List String :=
  ["--unshare-pid", "--unshare-ipc", "--unshare-uts", "--proc", "/proc",
   "--dev", "/dev", "--new-session", "--die-with-parent"]

/-- `EnhancedSecurityManager._get_profile_security_args`: a `--cap-add` for
each profile capability, then an `--add-port` for each profile network port
(the port loop runs only when the ports list is truthy). -/
def profile_security_args (p : ProfileConfig) : List String :=
  (p.capabilities.map (fun cap => ["--cap-add", cap])).flatten ++
  (match p.network_ports with
   | none => []
   | some ports =>
     if ports.isEmpty then []
     else (ports.map (fun port => ["--add-port", toString port])).flatten)

/-- Is a profile present with `"CAP_SYS_ADMIN"` among its capabilities?
(the condition guarding the extra strict-mode settings). -/
def profileHasSysAdmin (p : Option ProfileConfig) : Bool :=
  match p with
  | none => false
  | some prof => prof.capabilities.contains "CAP_SYS_ADMIN"

/-- `EnhancedSecurityManager._get_isolation_level_args`.  STRICT always
emits `--unshare-net`, `--unshare-cgroup-try` and `--cap-drop ALL`;
`--unshare-user-try`/`--hostname` are added only when no profile requires
`CAP_SYS_ADMIN`. -/
def isolation_level_args (lvl : IsolationLevel) (p : Option ProfileConfig) : List String :=
  match lvl with
  | .STRICT =>
    ["--unshare-net", "--unshare-cgroup-try", "--cap-drop", "ALL"] ++
    (if profileHasSysAdmin p then [] else ["--unshare-user-try", "--hostname", "isolated"])
  | .STANDARD => ["--share-net", "--unshare-user-try", "--hostname", "isolated"]
  | .MINIMAL => []

/-- `EnhancedSecurityManager._get_seccomp_args`: the profile's seccomp file
under `/etc/isolator/seccomp` when it exists, else the default filter when
it exists, else nothing. -/
def seccomp_args (p : Option ProfileConfig) (pathExists : String → Bool) : List String :=
  match p with
  | some prof =>
    match prof.seccomp_profile with
    | some s =>
      if pathExists ("/etc/isolator/seccomp/" ++ s) then
        ["--seccomp", "9", "/etc/isolator/seccomp/" ++ s]
      else if pathExists "/etc/isolator/seccomp/default.bpf" then
        ["--seccomp", "9", "/etc/isolator/seccomp/default.bpf"]
      else []
    | none =>
      if pathExists "/etc/isolator/seccomp/default.bpf" then
        ["--seccomp", "9", "/etc/isolator/seccomp/default.bpf"]
      else []
  | none =>
    if pathExists "/etc/isolator/seccomp/default.bpf" then
      ["--seccomp", "9", "/etc/isolator/seccomp/default.bpf"]
    else []

/-- `EnhancedSecurityManager.get_security_args`: base, profile, isolation
level, then seccomp arguments. -/
def get_security_args (lvl : IsolationLevel) (p : Option ProfileConfig)
    (pathExists : String → Bool) : List String :=
  base_security_args ++
  (match p with | none => [] | some prof => profile_security_args prof) ++
  isolation_level_args lvl p ++
  seccomp_args p pathExists

/-- `EnhancedSecurityManager.validate_security_config`: every capability
token must start with `"CAP_"` and, when a truthy port list is present,
every port must lie in `[0, 65535]`; a violation raises `SecurityError`,
which the method catches and reports as `False`. -/
def validate_security_config (p : Option ProfileConfig) : Bool :=
  match p with
  | none => true
  | some prof =>
    if prof.capabilities.all (fun cap => strStartsWith cap "CAP_") then
      match prof.network_ports with
      | none => true
      | some ports =>
        if ports.isEmpty then true
        else ports.all (fun port => decide (0 ≤ port) && decide (port ≤ 65535))
    else false

end EnhancedSecurityManager

namespace DisplayManager

/-- `DisplayManager._detect_display_server`. -/
def detect_display_server (env : String → Option String) : DisplayServer :=
  if envTruthy (env "WAYLAND_DISPLAY") then .WAYLAND
  else if envTruthy (env "DISPLAY") then .X11
  else .UNKNOWN

/-- `DisplayManager.get_display_args`. -/
def get_display_args (host : Host) : List String :=
  match detect_display_server host.env with
  | .X11 =>
    if host.pathExists "/tmp/.X11-unix" then
      ["--bind", "/tmp/.X11-unix", "/tmp/.X11-unix",
       "--setenv", "DISPLAY", (host.env "DISPLAY").getD ""] ++
      (if host.pathExists (host.home ++ "/.Xauthority") then
        ["--ro-bind", host.home ++ "/.Xauthority", host.home ++ "/.Xauthority"] else [])
    else []
  | .WAYLAND =>
    let sock := joinRel ((host.env "XDG_RUNTIME_DIR").getD "") ((host.env "WAYLAND_DISPLAY").getD "")
    if host.pathExists sock then
      ["--bind", sock, sock,
       "--setenv", "WAYLAND_DISPLAY", (host.env "WAYLAND_DISPLAY").getD "",
       "--setenv", "XDG_RUNTIME_DIR", (host.env "XDG_RUNTIME_DIR").getD ""]
    else []
  | .UNKNOWN => []

end DisplayManager

namespace FilesystemManager

/-- The `search_paths` list of `FilesystemManager.resolve_command`. -/
def search_paths : List String :=
  ["/usr/bin", "/usr/local/bin", "/opt", "/usr/lib", "/usr/lib64", "/usr/share", "/usr/local/lib"]

/-- One iteration of the search loop of `resolve_command`: try
`path/binary` directly (exists and executable), then the `os.walk`
subdirectory search when `path` exists. -/
def findInPath (host : Host) (bin p : String) : Option String :=
  let full := p ++ "/" ++ bin
  if host.pathExists full && host.isExec full then some full
  else if host.pathExists p then host.walkFind p bin
  else none

/-- The whole search loop over `search_paths`, first match wins. -/
def searchCommon (host : Host) (bin : String) : Option String :=
  search_paths.foldr
    (fun p acc => match findInPath host bin p with
      | some full => some full
      | none => acc)
    none

/-- `FilesystemManager.resolve_command`: raise `ValueError` on an empty
command; keep an absolute first token; otherwise try `which`, then the
common-location search, and finally fall back to the original token. -/
def resolve_command (host : Host) (command : List String) : Except PyError (List String) :=
  match command with
  | [] => .error (PyError.valueError "Empty command provided")
  | bin :: rest =>
    if strStartsWith bin "/" then .ok (bin :: rest)
    else
      match host.whichCmd bin with
      | some full => .ok (full :: rest)
      | none =>
        match searchCommon host bin with
        | some full => .ok (full :: rest)
        | none => .ok (bin :: rest)

/-- `essential_paths` of `FilesystemManager.setup`:
`(source, destination, writable)`. -/
def essential_paths (home : String) : List (String × String × Bool) :=
  [("/proc", "/proc", true), ("/sys", "/sys", false),
   ("/usr", "/usr", false), ("/bin", "/bin", false), ("/sbin", "/sbin", false),
   ("/lib", "/lib", false), ("/lib64", "/lib64", false),
   ("/etc", "/etc", false), ("/opt", "/opt", false), ("/var", "/var", false),
   (home, home, true)]

/-- The bind flavour used for an essential path. -/
def bindArg (writable : Bool) (src dest : String) : List String :=
  if writable then ["--bind", src, dest] else ["--ro-bind", src, dest]

/-- Essential-path block: each path bound only when it exists on the host. -/
def essentialArgs (host : Host) : List String :=
  ((essential_paths host.home).map
    (fun sdw => if host.pathExists sdw.1 then bindArg sdw.2.2 sdw.1 sdw.2.1 else [])).flatten

/-- The unconditional `/dev` and `/proc` sub-binds of `setup`. -/
def devArgs : List String :=
  ["--dev-bind", "/dev", "/dev", "--dev-bind", "/dev/shm", "/dev/shm",
   "--bind", "/proc/self", "/proc/self", "--bind", "/proc/sys", "/proc/sys",
   "--bind", "/proc/sysrq-trigger", "/proc/sysrq-trigger",
   "--bind", "/proc/irq", "/proc/irq", "--bind", "/proc/bus", "/proc/bus"]

/-- Device nodes bound individually when present. -/
def devNodes : List String :=
  ["/dev/null", "/dev/zero", "/dev/random", "/dev/urandom"]

/-- Device-node block of `setup`. -/
def devNodeArgs (host : Host) : List String :=
  (devNodes.map (fun d => if host.pathExists d then ["--dev-bind", d, d] else [])).flatten

/-- The `extra_paths` list of `setup`. -/
def extra_paths : List String :=
  ["/usr/local/bin", "/usr/local/sbin", "/usr/local/lib", "/usr/local/lib64",
   "/usr/local/share", "/usr/lib/mozilla", "/usr/lib/firefox", "/usr/lib/chromium",
   "/run", "/run/dbus", "/run/user",
   "/usr/share/fonts", "/usr/share/icons", "/usr/share/themes", "/var/cache/fontconfig",
   "/usr/share/applications", "/usr/share/mime", "/usr/share/X11", "/usr/share/glib-2.0"]

/-- Extra-path block: read-only binds for each existing extra path. -/
def extraArgs (host : Host) : List String :=
  (extra_paths.map (fun p => if host.pathExists p then ["--ro-bind", p, p] else [])).flatten

/-- The `user_config_paths` list of `setup`. -/
def user_config_paths : List String :=
  ["~/.config", "~/.local/share", "~/.cache", "~/.mozilla", "~/.pki",
   "~/.chrome", "~/.config/google-chrome"]

/-- User-config writable-overlay block: for each existing expanded path,
bind `temp_dirs[0]/basename(path)` (created with `os.makedirs`) over the
real path. -/
def userConfigArgs (host : Host) (tempDir0 : String) : List String :=
  (user_config_paths.map
    (fun p =>
      let full := expand_user host.home p
      if host.pathExists full then ["--bind", tempDir0 ++ "/" ++ basename p, full] else [])).flatten

/-- `FilesystemManager._setup_dbus`. -/
def dbusArgs (host : Host) : List String :=
  (if host.pathExists "/run/dbus" then ["--bind", "/run/dbus", "/run/dbus"] else []) ++
  (let sock := "/run/user/" ++ toString host.uid ++ "/bus"
   if host.pathExists sock then ["--bind", sock, sock] else [])

/-- `FilesystemManager._setup_xdg_runtime`: bind the user runtime directory
when it exists, then the four unconditional `/dev` symlinks. -/
def xdgArgs (host : Host) : List String :=
  (let d := "/run/user/" ++ toString host.uid
   if host.pathExists d then ["--bind", d, d] else []) ++
  ["--symlink", "/proc/self/fd", "/dev/fd",
   "--symlink", "/proc/self/fd/0", "/dev/stdin",
   "--symlink", "/proc/self/fd/1", "/dev/stdout",
   "--symlink", "/proc/self/fd/2", "/dev/stderr"]

/-- The `app_dirs` list of the persistent branch of `_setup_overlay`. -/
def app_dirs : List String :=
  [".config", ".cache", ".local/share", ".mozilla", ".pki", ".chrome",
   ".config/google-chrome", "Downloads", "Documents"]

/-- Persistent branch of `_setup_overlay`: bind a subdirectory of
`persist_dir` (created with `mkdir -p`) over each home subdirectory. -/
def persistOverlayArgs (home persist : String) : List String :=
  (app_dirs.map (fun d => ["--bind", persist ++ "/" ++ d, home ++ "/" ++ d])).flatten

/-- Ephemeral branch of `_setup_overlay`: a fresh `mkdtemp` directory with
`.config`, `.cache` and `.local/share` subdirectories bound over home. -/
def ephemeralOverlayArgs (home freshOverlay : String) : List String :=
  ([".config", ".cache", ".local/share"].map
    (fun d => ["--bind", freshOverlay ++ "/" ++ d, home ++ "/" ++ d])).flatten

/-- `FilesystemManager._create_temp_dirs`: the user-supplied `tmp_dir` when
given, otherwise one fresh `mkdtemp` directory. -/
def tempDirs0 (cfg : IsolationConfig) (freshTmp : String) : List String :=
  match cfg.tmpDir with
  | some t => [t]
  | none => [freshTmp]

/-- The directories `_create_temp_dirs` actually creates (only the
`mkdtemp` one; a user-supplied `tmp_dir` is not created here). -/
def created0 (cfg : IsolationConfig) (freshTmp : String) : List String :=
  match cfg.tmpDir with
  | some _ => []
  | none => [freshTmp]

/-- The fresh `mkdtemp` directory appended to `self.temp_dirs` by the
ephemeral branch of `_setup_overlay`. -/
def overlayTemps (cfg : IsolationConfig) (freshOverlay : String) : List String :=
  if cfg.overlayEnabled then
    match cfg.persistDir with
    | some _ => []
    | none => [freshOverlay]
  else []

/-- The overlay block of `setup` (empty when `overlay_enabled` is off). -/
def overlayArgs (cfg : IsolationConfig) (host : Host) (freshOverlay : String) : List String :=
  if cfg.overlayEnabled then
    match cfg.persistDir with
    | some p => persistOverlayArgs host.home p
    | none => ephemeralOverlayArgs host.home freshOverlay
  else []

/-- The `/tmp` block of `setup`: bind the explicit temp directory when
given, else a tmpfs. -/
def tmpArgs (cfg : IsolationConfig) : List String :=
  match cfg.tmpDir with
  | some t => ["--bind", t, "/tmp"]
  | none => ["--tmpfs", "/tmp"]

/-- The trailing `PATH` assignment of `setup`. -/
def pathEnvArgs : List String :=
  ["--setenv", "PATH", SecurityManager.fixedPath]

/-- The argument list produced by `FilesystemManager.setup`, in emission
order: essential paths, `/dev` and `/proc` binds, device nodes, extra
paths, user-config overlays, D-Bus, XDG runtime, overlay filesystem,
`/tmp`, `PATH`. -/
def setupArgs (cfg : IsolationConfig) (host : Host) (freshTmp freshOverlay : String) : List String :=
  essentialArgs host ++ devArgs ++ devNodeArgs host ++ extraArgs host ++
  userConfigArgs host ((tempDirs0 cfg freshTmp).headD "") ++
  dbusArgs host ++ xdgArgs host ++
  overlayArgs cfg host freshOverlay ++ tmpArgs cfg ++ pathEnvArgs

/-- `self.temp_dirs` after `setup`: the `_create_temp_dirs` result plus the
ephemeral overlay directory, when one was made. -/
def setupTempDirs (cfg : IsolationConfig) (freshTmp freshOverlay : String) : List String :=
  tempDirs0 cfg freshTmp ++ overlayTemps cfg freshOverlay

/-- The temporary directories `setup` created via `mkdtemp`. -/
def setupCreated (cfg : IsolationConfig) (freshTmp freshOverlay : String) : List String :=
  created0 cfg freshTmp ++ overlayTemps cfg freshOverlay

/-- Effect of `FilesystemManager.cleanup` on the filesystem: each directory
in `self.temp_dirs` is removed recursively with `shutil.rmtree` (failures
are logged and ignored). -/
def cleanupFs (tempDirs : List String) (fs : String → Bool) : String → Bool :=
  fun p => fs p && !(tempDirs.any (fun d => p == d || strStartsWith p (d ++ "/")))

end FilesystemManager

namespace ApplicationIsolator

/-- Exit behaviours of the `bwrap` child process as observed by
`ApplicationIsolator._execute_bwrap`. -/
inductive ExecOutcome where
  | completed (code : Int)
  | interrupted
  | calledProcessError (code : Int)
  | otherError
deriving DecidableEq, Repr

/-- `ApplicationIsolator._execute_bwrap`: the child's exit code on normal
completion, the fixed sentinel `130` on `KeyboardInterrupt`, the error's
own code on `CalledProcessError`, and `1` on any other exception. -/
def execute_bwrap (outcome : ExecOutcome) : Int :=
  match outcome with
  | .completed code => code
  | .interrupted => 130
  | .calledProcessError code => code
  | .otherError => 1

/-- The browser environment block appended by `ApplicationIsolator.run`. -/
def browserEnvArgs : List String :=
  ["--setenv", "CHROME_SANDBOX", "1",
   "--setenv", "CHROME_WRAPPER", "1",
   "--setenv", "CHROME_DISABLE_SETUID_SANDBOX", "1"]

/-- The `ResourceLimits` handed to `ResourceManager` by
`ApplicationIsolator.__init__`: the profile's resource limits when a
profile configuration with limits was loaded, else the all-`None`
default. -/
def effectiveLimits (pc : Option ProfileConfig) : ResourceLimits :=
  match pc with
  | some c => c.resource_limits.getD {}
  | none => {}

/-- `ApplicationIsolator._prepare_bwrap_args` (with the command already
resolved by `run`): `bwrap`, filesystem setup, display arguments when GUI
is enabled, security arguments, resource arguments, then the command.
Resource planning can raise (size parsing, missing cgroup attribute), in
which case the temp directories registered by `setup` are already in
`self.temp_dirs`. -/
def prepareArgsE (cfg : IsolationConfig) (host : Host) (pc : Option ProfileConfig)
    (resolved : List String) (freshTmp freshOverlay : String) :
    Except PyError (List String) :=
  match ResourceManager.get_resource_args (ResourceManager.cgroup_version host)
      (effectiveLimits pc) with
  | .error e => .error e
  | .ok rArgs =>
    .ok (["bwrap"] ++ FilesystemManager.setupArgs cfg host freshTmp freshOverlay ++
      (if cfg.guiEnabled then DisplayManager.get_display_args host else []) ++
      SecurityManager.get_security_args cfg.isolationLevel cfg.profile host ++
      rArgs ++ resolved)

/-- The full compiled `bwrap` argument list of one `run` invocation:
command resolution, `_prepare_bwrap_args`, plus the browser environment
block when the forced profile is `BROWSER`. -/
def compiledArgs (cfg : IsolationConfig) (host : Host) (pc : Option ProfileConfig)
    (freshTmp freshOverlay : String) : Except PyError (List String) :=
  match FilesystemManager.resolve_command host cfg.appCommand with
  | .error e => .error e
  | .ok resolved =>
    match prepareArgsE cfg host pc resolved freshTmp freshOverlay with
    | .error e => .error e
    | .ok args =>
      .ok (args ++ (if cfg.profile == some .BROWSER then browserEnvArgs else []))

/-- `ApplicationIsolator.run`, returning the exit code, the temporary
directories created by `mkdtemp` during compilation, and the directories
removed by the `finally` cleanup (every entry of `self.temp_dirs`).  Any
exception inside the `try` block yields exit code `1`; the `finally`
cleanup always runs. -/
def runIsolator (cfg : IsolationConfig) (host : Host) (pc : Option ProfileConfig)
    (freshTmp freshOverlay : String) (outcome : ExecOutcome) :
    Int × List String × List String :=
  match FilesystemManager.resolve_command host cfg.appCommand with
  | .error _ => (1, [], [])
  | .ok resolved =>
    match prepareArgsE cfg host pc resolved freshTmp freshOverlay with
    | .error _ => (1, FilesystemManager.setupCreated cfg freshTmp freshOverlay,
        FilesystemManager.setupTempDirs cfg freshTmp freshOverlay)
    | .ok _ => (execute_bwrap outcome,
        FilesystemManager.setupCreated cfg freshTmp freshOverlay,
        FilesystemManager.setupTempDirs cfg freshTmp freshOverlay)

end ApplicationIsolator

/-- `IsolationConfig.__post_init__`: an empty command raises `ValueError`
before the persist/tmp directory handling (the only side effect, a
`mkdir`, happens after this check); otherwise the persist and tmp
directories are user-expanded. -/
def mkIsolationConfig (home : String) (appCommand : List String)
    (persistDir : Option String) (networkEnabled guiEnabled : Bool)
    (isolationLevel : IsolationLevel) (tmpDir : Option String)
    (overlayEnabled debug : Bool) (profile : Option ApplicationProfile)
    (resourceLimits : Option ResourceLimits) : Except PyError IsolationConfig :=
  if appCommand.isEmpty then
    .error (PyError.valueError "Application command cannot be empty")
  else
    .ok { appCommand := appCommand,
          persistDir := persistDir.map (expand_user home),
          networkEnabled := networkEnabled,
          guiEnabled := guiEnabled,
          isolationLevel := isolationLevel,
          tmpDir := tmpDir.map (expand_user home),
          overlayEnabled := overlayEnabled,
          debug := debug,
          profile := profile,
          resourceLimits := resourceLimits }

/-- The argument list carried by an `ok` result (empty on error). -/
def argsOrEmpty (e : Except PyError (List String)) : List String :=
  match e with
  | .ok a => a
  | .error _ => []

/-- A minimal host snapshot: only the cgroup-v2 filesystem markers exist,
`which` and the common-location search find nothing, no display server is
configured, home is `/home/user`, uid 1000. -/
def hostMin : Host where
  pathExists := fun p => p == "/sys/fs/cgroup" || p == "/sys/fs/cgroup/cgroup.controllers"
  isExec := fun _ => false
  whichCmd := fun _ => none
  walkFind := fun _ _ => none
  env := fun _ => none
  home := "/home/user"
  uid := 1000

/-- The spec's end-to-end request: `{command: [echo, hi], isolation_level:
MINIMAL}`, every other field left at its default. -/
def cfgEcho : IsolationConfig :=
  { appCommand := ["echo", "hi"], isolationLevel := .MINIMAL }

/-- A profile whose capability list contains `CAP_SYS_ADMIN` (the
privileged capability the strict-mode branch tests for). -/
def privProf : ProfileConfig :=
  { name := "admin", mounts := [], devices := [], capabilities := ["CAP_SYS_ADMIN"],
    env_vars := [] }

/-- Two well-formed profile documents used when exercising the catalog
load. -/
def profA : ProfileConfig :=
  { name := "a", mounts := ["/usr"], devices := [], capabilities := [], env_vars := [] }

/-- Second well-formed profile document. -/
def profB : ProfileConfig :=
  { name := "b", mounts := [], devices := ["/dev/dri"], capabilities := [], env_vars := [] }

lemma startsWithSeq_implies_containsSeq (pat l : List String)
    (h : startsWithSeq pat l = true) : containsSeq pat l = true := by
  cases l with
  | nil =>
    cases pat with
    | nil => rfl
    | cons p ps => simp [startsWithSeq] at h
  | cons x xs =>
    simp only [containsSeq, Bool.or_eq_true]
    exact Or.inl h

lemma containsSeq_append_right (pat l₁ l₂ : List String)
    (h : containsSeq pat l₂ = true) : containsSeq pat (l₁ ++ l₂) = true := by
  induction l₁ with
  | nil => simpa using h
  | cons x xs ih =>
    simp only [List.cons_append, containsSeq, Bool.or_eq_true]
    exact Or.inr ih

/-- Claim C4 (amended): size parsing maps `"2G"` to 2147483648 bytes and
`"500M"` to 524288000 bytes, `"5X"` fails with the invalid-size-unit
`ValueError`, and every string whose stripped form is non-empty and ends in
a character that is not a recognized unit (case-insensitively) fails with
that error rather than returning a value.  (The original claim quantified
over the raw final character; `_parse_size` strips whitespace first, see
the counterexample.) -/
theorem c4_parse_size_units :
    ResourceManager.parse_size "2G" = .ok 2147483648 ∧
    ResourceManager.parse_size "500M" = .ok 524288000 ∧
    ResourceManager.parse_size "5X" =
      .error (PyError.valueError "Invalid size unit in 5X") ∧
    ∀ (cs : List Char) (c : Char), (trimChars cs).getLast? = some c →
      ResourceManager.unitsVal c.toUpper = none →
      ResourceManager.parse_size_chars cs =
        .error (PyError.valueError ("Invalid size unit in " ++ String.mk cs)) := by
  refine ⟨by decide, by decide, by decide, ?_⟩
  intro cs c h1 h2
  unfold ResourceManager.parse_size_chars
  simp only []
  rw [h1]
  simp only []
  rw [h2]

/-- Witness for C4: the general unrecognized-unit clause applied at the
concrete input `"5X"`. -/
theorem c4_parse_size_units_witness :
    ResourceManager.parse_size_chars "5X".data =
      .error (PyError.valueError ("Invalid size unit in " ++ String.mk "5X".data)) :=
  c4_parse_size_units.2.2.2 "5X".data 'X' (by decide) (by decide)

/-- Counterexample for C4 as stated: the final character of `"2G "` is a
space, which is not a recognized unit, yet parsing strips whitespace first
and returns a value instead of failing. -/
theorem c4_parse_size_units_counterexample :
    ResourceManager.parse_size "2G " = .ok 2147483648 ∧
    ("2G ".data).getLast? = some ' ' ∧
    ResourceManager.unitsVal ' '.toUpper = none := by
  refine ⟨by decide, by decide, by decide⟩

/-- Claim C10: size parsing is not total — on the empty string the
`size[-1]` access raises `IndexError` instead of producing the documented
invalid-size `ValueError`. -/
theorem c10_parse_size_empty_index_error :
    ResourceManager.parse_size "" = .error PyError.indexError ∧
    ∀ msg, ResourceManager.parse_size "" ≠ .error (PyError.valueError msg) := by
  refine ⟨by decide, ?_⟩
  intro msg h
  simp [ResourceManager.parse_size, ResourceManager.parse_size_chars, trimChars] at h

/-- Claim C6 (the code contradicts it): a malformed document in the middle
of the catalog makes `_load_profiles` raise `NameError` (the `except`
handler calls `logging.error` but `profiles.py` never imports `logging`),
aborting the whole load and dropping the later well-formed document,
whereas a catalog of only well-formed documents loads completely. -/
theorem c6_load_profiles_aborts_on_malformed :
    ProfileManager.load_profiles [some profA, none, some profB] [] =
      .error (PyError.nameError "name logging is not defined") ∧
    ProfileManager.load_profiles [some profA, some profB] [] =
      .ok [("a", profA), ("b", profB)] := by
  refine ⟨by decide, by decide⟩

/-- Claim C5: security-configuration validation accepts the capability
token `CAP_NET_ADMIN` and rejects `net_admin`, accepts ports 0 and 65535
and rejects -1 and 65536, and in general succeeds exactly when every
capability token starts with `CAP_` and every declared port lies in
`[0, 65535]`. -/
theorem c5_validate_security_config (prof : ProfileConfig) :
    EnhancedSecurityManager.validate_security_config
      (some { name := "p", mounts := [], devices := [],
              capabilities := ["CAP_NET_ADMIN"], env_vars := [],
              network_ports := some [0, 65535] }) = true ∧
    EnhancedSecurityManager.validate_security_config
      (some { name := "p", mounts := [], devices := [],
              capabilities := ["net_admin"], env_vars := [] }) = false ∧
    EnhancedSecurityManager.validate_security_config
      (some { name := "p", mounts := [], devices := [],
              capabilities := ["CAP_NET_ADMIN"], env_vars := [],
              network_ports := some [-1] }) = false ∧
    EnhancedSecurityManager.validate_security_config
      (some { name := "p", mounts := [], devices := [],
              capabilities := ["CAP_NET_ADMIN"], env_vars := [],
              network_ports := some [65536] }) = false ∧
    (EnhancedSecurityManager.validate_security_config (some prof) = true ↔
      ((∀ cap ∈ prof.capabilities, strStartsWith cap "CAP_" = true) ∧
       ∀ ports, prof.network_ports = some ports →
         ∀ port ∈ ports, 0 ≤ port ∧ port ≤ 65535)) := by
  refine ⟨by decide, by decide, by decide, by decide, ?_⟩
  unfold EnhancedSecurityManager.validate_security_config
  simp only []
  constructor
  · intro h
    by_cases hc : prof.capabilities.all (fun cap => strStartsWith cap "CAP_") = true
    · refine ⟨List.all_eq_true.mp hc, ?_⟩
      intro ports hp port hmem
      rw [if_pos hc, hp] at h
      by_cases he : ports.isEmpty = true
      · rw [List.isEmpty_iff] at he
        subst he
        simp at hmem
      · simp only [he, if_false, Bool.false_eq_true] at h
        have := List.all_eq_true.mp h port hmem
        rw [Bool.and_eq_true] at this
        exact ⟨of_decide_eq_true this.1, of_decide_eq_true this.2⟩
    · rw [if_neg hc] at h
      exact absurd h (by simp)
  · rintro ⟨hcaps, hports⟩
    rw [if_pos (List.all_eq_true.mpr hcaps)]
    cases hp : prof.network_ports with
    | none => rfl
    | some ports =>
      by_cases he : ports.isEmpty = true
      · simp [he]
      · simp only [he, if_false]
        refine List.all_eq_true.mpr ?_
        intro port hmem
        rw [Bool.and_eq_true]
        exact ⟨decide_eq_true (hports ports hp port hmem).1,
               decide_eq_true (hports ports hp port hmem).2⟩

/-- Witness for C5: the general characterisation applied at a concrete
profile with a valid capability and the two boundary ports. -/
theorem c5_validate_security_config_witness :
    EnhancedSecurityManager.validate_security_config
      (some { name := "w", mounts := [], devices := [],
              capabilities := ["CAP_NET_ADMIN"], env_vars := [],
              network_ports := some [0, 65535] }) = true := by
  have h := (c5_validate_security_config
    { name := "w", mounts := [], devices := [],
      capabilities := ["CAP_NET_ADMIN"], env_vars := [],
      network_ports := some [0, 65535] }).2.2.2.2
  refine h.mpr ⟨?_, ?_⟩
  · intro cap hm
    simp at hm
    subst hm
    decide
  · intro ports hp port hm
    simp at hp
    subst hp
    simp at hm
    rcases hm with h0 | h1
    · subst h0; exact ⟨le_refl 0, by decide⟩
    · subst h1; exact ⟨by decide, le_refl 65535⟩

/-- Claim C1 (amended): at STRICT the security argument list always
contains `--unshare-net` and the consecutive pair `--cap-drop ALL` — even
when the resolved profile requires `CAP_SYS_ADMIN`.  When it does, the
capability is emitted earlier via `--cap-add` and the isolation-level block
skips `--unshare-user-try` (and `--hostname`); otherwise the block emits
them.  (The original claim said the required capability is retained *
instead of* dropping all capabilities; the code emits `--cap-drop ALL`
unconditionally, see the counterexample.) -/
theorem c1_strict_isolation_args (p : Option ProfileConfig) (pe : String → Bool) :
    "--unshare-net" ∈ EnhancedSecurityManager.get_security_args .STRICT p pe ∧
    containsSeq ["--cap-drop", "ALL"]
      (EnhancedSecurityManager.get_security_args .STRICT p pe) = true ∧
    (EnhancedSecurityManager.profileHasSysAdmin p = true →
      EnhancedSecurityManager.isolation_level_args .STRICT p =
        ["--unshare-net", "--unshare-cgroup-try", "--cap-drop", "ALL"]) ∧
    (EnhancedSecurityManager.profileHasSysAdmin p = false →
      EnhancedSecurityManager.isolation_level_args .STRICT p =
        ["--unshare-net", "--unshare-cgroup-try", "--cap-drop", "ALL",
         "--unshare-user-try", "--hostname", "isolated"]) ∧
    SecurityManager.default_security_args .STRICT =
      ["--hostname", "isolated", "--unshare-net", "--unshare-cgroup-try",
       "--unshare-user-try", "--cap-drop", "ALL"] := by
  refine ⟨?_, ?_, ?_, ?_, by decide⟩
  · unfold EnhancedSecurityManager.get_security_args
    refine List.mem_append.mpr (Or.inl (List.mem_append.mpr (Or.inr ?_)))
    unfold EnhancedSecurityManager.isolation_level_args
    exact List.mem_append.mpr (Or.inl (by decide))
  · unfold EnhancedSecurityManager.get_security_args
    rw [List.append_assoc, List.append_assoc]
    refine containsSeq_append_right _ _ _ (containsSeq_append_right _ _ _ ?_)
    unfold EnhancedSecurityManager.isolation_level_args
    rfl
  · intro h
    unfold EnhancedSecurityManager.isolation_level_args
    rw [h]
    rfl
  · intro h
    unfold EnhancedSecurityManager.isolation_level_args
    rw [h]
    rfl

/-- Witness for C1: the amended theorem applied to the concrete profile
that requires `CAP_SYS_ADMIN`, with no seccomp files on disk. -/
theorem c1_strict_isolation_args_witness :
    "--unshare-net" ∈
      EnhancedSecurityManager.get_security_args .STRICT (some privProf) (fun _ => false) ∧
    containsSeq ["--cap-drop", "ALL"]
      (EnhancedSecurityManager.get_security_args .STRICT (some privProf) (fun _ => false)) = true ∧
    EnhancedSecurityManager.isolation_level_args .STRICT (some privProf) =
      ["--unshare-net", "--unshare-cgroup-try", "--cap-drop", "ALL"] := by
  have h := c1_strict_isolation_args (some privProf) (fun _ => false)
  exact ⟨h.1, h.2.1, h.2.2.1 (by decide)⟩

/-- Counterexample for C1 as stated: with a STRICT level and a profile
requiring `CAP_SYS_ADMIN`, the emitted list still contains `--cap-drop
ALL` (the capability is *not* exempted from the drop; `--cap-add
CAP_SYS_ADMIN` merely precedes it), contradicting the claim that the
capability is retained rather than dropped. -/
theorem c1_strict_isolation_args_counterexample :
    EnhancedSecurityManager.get_security_args .STRICT (some privProf) (fun _ => false) =
      ["--unshare-pid", "--unshare-ipc", "--unshare-uts", "--proc", "/proc",
       "--dev", "/dev", "--new-session", "--die-with-parent",
       "--cap-add", "CAP_SYS_ADMIN",
       "--unshare-net", "--unshare-cgroup-try", "--cap-drop", "ALL"] ∧
    "--cap-drop" ∈
      EnhancedSecurityManager.get_security_args .STRICT (some privProf) (fun _ => false) ∧
    EnhancedSecurityManager.profileHasSysAdmin (some privProf) = true := by
  refine ⟨by decide, by decide, by decide⟩

set_option maxRecDepth 4096

lemma cleanupFs_removes_tree (tempDirs : List String) (fs : String → Bool)
    (p t : String) (ht : t ∈ tempDirs)
    (hp : (p == t || strStartsWith p (t ++ "/")) = true) :
    FilesystemManager.cleanupFs tempDirs fs p = false := by
  unfold FilesystemManager.cleanupFs
  have hany : tempDirs.any (fun d => p == d || strStartsWith p (d ++ "/")) = true :=
    List.any_eq_true.mpr ⟨t, ht, hp⟩
  rw [hany]
  simp

lemma setupCreated_subset_tempDirs (cfg : IsolationConfig) (f1 f2 : String) :
    ∀ d ∈ FilesystemManager.setupCreated cfg f1 f2,
      d ∈ FilesystemManager.setupTempDirs cfg f1 f2 := by
  intro d hd
  unfold FilesystemManager.setupCreated FilesystemManager.created0 at hd
  unfold FilesystemManager.setupTempDirs FilesystemManager.tempDirs0
  cases h : cfg.tmpDir with
  | some t =>
    rw [h] at hd
    simp only [List.nil_append] at hd
    exact List.mem_append.mpr (Or.inr hd)
  | none =>
    rw [h] at hd
    exact hd

lemma resolve_command_cons_ok (host : Host) (c : String) (cs : List String) :
    ∃ r, FilesystemManager.resolve_command host (c :: cs) = .ok r := by
  unfold FilesystemManager.resolve_command
  simp only []
  by_cases h1 : strStartsWith c "/" = true
  · exact ⟨c :: cs, by rw [if_pos h1]⟩
  · rw [if_neg h1]
    cases h2 : host.whichCmd c with
    | some full => exact ⟨full :: cs, rfl⟩
    | none =>
      cases h3 : FilesystemManager.searchCommon host c with
      | some full => exact ⟨full :: cs, rfl⟩
      | none => exact ⟨c :: cs, rfl⟩

/-- Claim C2 (amended): compilation is a pure function of the request, the
filesystem snapshot, and the fresh directory names returned by `mkdtemp`;
in particular, when the request supplies an explicit `tmp_dir` and either
disables the overlay or supplies a persist directory, no `mkdtemp` name
can reach the plan, and compilation is byte-identical across runs against
the same snapshot.  (Without these conditions the fresh `mkdtemp` names
are embedded in the argument list, so two compilations differ — see the
counterexample.) -/
theorem c2_compile_deterministic (cfg : IsolationConfig) (host : Host)
    (pc : Option ProfileConfig) (f1 f1' f2 f2' t : String)
    (htmp : cfg.tmpDir = some t)
    (hov : cfg.overlayEnabled = false ∨ ∃ pd, cfg.persistDir = some pd) :
    ApplicationIsolator.compiledArgs cfg host pc f1 f2 =
    ApplicationIsolator.compiledArgs cfg host pc f1' f2' := by
  unfold ApplicationIsolator.compiledArgs ApplicationIsolator.prepareArgsE
    FilesystemManager.setupArgs FilesystemManager.tempDirs0 FilesystemManager.overlayArgs
  rw [htmp]
  rcases hov with h | ⟨pd, h⟩ <;> (rw [h]; try simp)

/-- Witness for C2: the amended determinism theorem at a concrete request
with an explicit `tmp_dir` and overlay disabled. -/
theorem c2_compile_deterministic_witness :
    ApplicationIsolator.compiledArgs
      { appCommand := ["echo"], tmpDir := some "/tmp/x", overlayEnabled := false }
      hostMin none "/tmp/f1" "/tmp/f2" =
    ApplicationIsolator.compiledArgs
      { appCommand := ["echo"], tmpDir := some "/tmp/x", overlayEnabled := false }
      hostMin none "/tmp/g1" "/tmp/g2" :=
  c2_compile_deterministic
    { appCommand := ["echo"], tmpDir := some "/tmp/x", overlayEnabled := false }
    hostMin none "/tmp/f1" "/tmp/g1" "/tmp/f2" "/tmp/g2" "/tmp/x" rfl (Or.inl rfl)

/-- Counterexample for C2 as stated: the same request compiled twice
against the identical snapshot, with the two different directory names the
two `mkdtemp` calls may return, yields two different (both successful)
argument lists — the fresh overlay directory name is embedded in the
plan. -/
theorem c2_compile_deterministic_counterexample :
    argsOrEmpty (ApplicationIsolator.compiledArgs cfgEcho hostMin none "/tmp/iso1" "/tmp/ovlA") ≠
      argsOrEmpty (ApplicationIsolator.compiledArgs cfgEcho hostMin none "/tmp/iso1" "/tmp/ovlB") ∧
    (ApplicationIsolator.compiledArgs cfgEcho hostMin none "/tmp/iso1" "/tmp/ovlA").isOk = true ∧
    (ApplicationIsolator.compiledArgs cfgEcho hostMin none "/tmp/iso1" "/tmp/ovlB").isOk = true := by
  refine ⟨by decide, by decide, by decide⟩

/-- Claim C3 (amended): the request `{command: [echo, hi], isolation_level:
MINIMAL}` with no persist directory compiles successfully (on a snapshot
where command resolution finds nothing); the final argv is `[echo, hi]`;
the only namespaces unshared are pid, ipc and uts; and the mount list
*does* contain writable ephemeral overlay rules binding fresh temporary
subdirectories over the home configuration paths (overlay is enabled by
default), though none backed by a persist directory. -/
theorem c3_minimal_echo_plan :
    (ApplicationIsolator.compiledArgs cfgEcho hostMin none "/tmp/iso1" "/tmp/ovl").isOk = true ∧
    (let a := argsOrEmpty (ApplicationIsolator.compiledArgs cfgEcho hostMin none "/tmp/iso1" "/tmp/ovl")
     a.drop (a.length - 2)) = ["echo", "hi"] ∧
    (argsOrEmpty (ApplicationIsolator.compiledArgs cfgEcho hostMin none "/tmp/iso1" "/tmp/ovl")).filter
      (fun s => strStartsWith s "--unshare") =
      ["--unshare-pid", "--unshare-ipc", "--unshare-uts"] ∧
    containsSeq ["--bind", "/tmp/ovl/.config", "/home/user/.config"]
      (argsOrEmpty (ApplicationIsolator.compiledArgs cfgEcho hostMin none "/tmp/iso1" "/tmp/ovl")) = true ∧
    cfgEcho.persistDir = none := by
  refine ⟨by decide, by decide, by decide, by decide, by decide⟩

/-- Counterexample for C3 as stated: the claim says the compiled mount list
contains no writable overlay rules, but the plan for exactly that request
(no persist directory supplied) contains the writable bind of the fresh
overlay directory `.config` subdirectory over `~/.config`. -/
theorem c3_minimal_echo_plan_counterexample :
    containsSeq ["--bind", "/tmp/ovl/.config", "/home/user/.config"]
      (argsOrEmpty (ApplicationIsolator.compiledArgs cfgEcho hostMin none "/tmp/iso1" "/tmp/ovl")) = true ∧
    cfgEcho.persistDir = none ∧
    (ApplicationIsolator.compiledArgs cfgEcho hostMin none "/tmp/iso1" "/tmp/ovl").isOk = true := by
  refine ⟨by decide, by decide, by decide⟩

/-- Claim C7: a request with an empty command fails in
`IsolationConfig.__post_init__` with the configuration `ValueError` before
any side effect (the check precedes the persist-directory `mkdir`), and a
configuration holding an empty command compiles to nothing: command
resolution raises, no argument list is produced, and no temporary
directory is created or removed. -/
theorem c7_empty_command_no_plan (home : String) (persistDir : Option String)
    (networkEnabled guiEnabled : Bool) (lvl : IsolationLevel) (tmpDir : Option String)
    (overlayEnabled debug : Bool) (profile : Option ApplicationProfile)
    (rl : Option ResourceLimits) (host : Host) (pc : Option ProfileConfig)
    (f1 f2 : String) (outcome : ApplicationIsolator.ExecOutcome)
    (cfg : IsolationConfig) (hcfg : cfg.appCommand = []) :
    mkIsolationConfig home [] persistDir networkEnabled guiEnabled lvl tmpDir
        overlayEnabled debug profile rl =
      .error (PyError.valueError "Application command cannot be empty") ∧
    ApplicationIsolator.compiledArgs cfg host pc f1 f2 =
      .error (PyError.valueError "Empty command provided") ∧
    ApplicationIsolator.runIsolator cfg host pc f1 f2 outcome = (1, [], []) := by
  refine ⟨rfl, ?_, ?_⟩
  · unfold ApplicationIsolator.compiledArgs
    rw [hcfg]
    rfl
  · unfold ApplicationIsolator.runIsolator
    rw [hcfg]
    rfl

/-- Witness for C7: the empty-command theorem at a concrete configuration
and snapshot. -/
theorem c7_empty_command_no_plan_witness :
    mkIsolationConfig "/home/user" [] none true true .STANDARD none true false none none =
      .error (PyError.valueError "Application command cannot be empty") ∧
    ApplicationIsolator.compiledArgs { appCommand := [] } hostMin none "/tmp/a" "/tmp/b" =
      .error (PyError.valueError "Empty command provided") ∧
    ApplicationIsolator.runIsolator { appCommand := [] } hostMin none "/tmp/a" "/tmp/b"
      .interrupted = (1, [], []) :=
  c7_empty_command_no_plan "/home/user" none true true .STANDARD none true false none none
    hostMin none "/tmp/a" "/tmp/b" .interrupted { appCommand := [] } rfl

/-- Claim C8: on every terminal path of a run — normal completion, internal
failure (a compile-phase exception), and interrupt — the `finally` cleanup
runs and removes every temporary directory created during compilation from
the filesystem; and whenever the plan compiled, an interrupt yields the
fixed sentinel exit code 130. -/
theorem c8_cleanup_every_terminal_path (cfg : IsolationConfig) (host : Host)
    (pc : Option ProfileConfig) (f1 f2 : String)
    (outcome : ApplicationIsolator.ExecOutcome) :
    (∀ d ∈ (ApplicationIsolator.runIsolator cfg host pc f1 f2 outcome).2.1,
      FilesystemManager.cleanupFs (ApplicationIsolator.runIsolator cfg host pc f1 f2 outcome).2.2
        host.pathExists d = false) ∧
    ((ApplicationIsolator.compiledArgs cfg host pc f1 f2).isOk = true →
      outcome = ApplicationIsolator.ExecOutcome.interrupted →
      (ApplicationIsolator.runIsolator cfg host pc f1 f2 outcome).1 = 130) := by
  unfold ApplicationIsolator.runIsolator ApplicationIsolator.compiledArgs
  cases hres : FilesystemManager.resolve_command host cfg.appCommand with
  | error e =>
    simp only []
    constructor
    · intro d hd
      simp at hd
    · intro hok
      simp [Except.isOk, Except.toBool] at hok
  | ok resolved =>
    simp only []
    cases hprep : ApplicationIsolator.prepareArgsE cfg host pc resolved f1 f2 with
    | error e =>
      simp only []
      constructor
      · intro d hd
        exact cleanupFs_removes_tree _ _ _ d
          (setupCreated_subset_tempDirs cfg f1 f2 d hd) (by simp)
      · intro hok
        simp [Except.isOk, Except.toBool] at hok
    | ok args =>
      simp only []
      constructor
      · intro d hd
        exact cleanupFs_removes_tree _ _ _ d
          (setupCreated_subset_tempDirs cfg f1 f2 d hd) (by simp)
      · intro _ hout
        rw [hout]
        rfl

/-- Witness for C8: a run that compiles and is interrupted returns the
sentinel 130 and its fresh temp directory is gone after cleanup. -/
theorem c8_cleanup_every_terminal_path_witness :
    (ApplicationIsolator.runIsolator cfgEcho hostMin none "/tmp/iso1" "/tmp/ovl"
      ApplicationIsolator.ExecOutcome.interrupted).1 = 130 ∧
    FilesystemManager.cleanupFs
      (ApplicationIsolator.runIsolator cfgEcho hostMin none "/tmp/iso1" "/tmp/ovl"
        ApplicationIsolator.ExecOutcome.interrupted).2.2
      hostMin.pathExists "/tmp/iso1" = false := by
  have h := c8_cleanup_every_terminal_path cfgEcho hostMin none "/tmp/iso1" "/tmp/ovl"
    ApplicationIsolator.ExecOutcome.interrupted
  exact ⟨h.2 (by decide) rfl, h.1 "/tmp/iso1" (by decide)⟩

/-- Claim C9: a user-supplied `tmp_dir` is put into the manager's
temp-directory list, so cleanup `rmtree`s it on every run with a non-empty
command — the directory and its whole subtree are gone afterwards even
though the program never created it. -/
theorem c9_user_tmp_dir_deleted (cfg : IsolationConfig) (host : Host)
    (pc : Option ProfileConfig) (f1 f2 : String)
    (outcome : ApplicationIsolator.ExecOutcome) (t c : String) (cs : List String)
    (hcmd : cfg.appCommand = c :: cs) (htmp : cfg.tmpDir = some t) :
    t ∈ (ApplicationIsolator.runIsolator cfg host pc f1 f2 outcome).2.2 ∧
    ∀ p, (p == t || strStartsWith p (t ++ "/")) = true →
      FilesystemManager.cleanupFs
        (ApplicationIsolator.runIsolator cfg host pc f1 f2 outcome).2.2
        host.pathExists p = false := by
  have hmem : t ∈ FilesystemManager.setupTempDirs cfg f1 f2 := by
    unfold FilesystemManager.setupTempDirs FilesystemManager.tempDirs0
    rw [htmp]
    exact List.mem_append.mpr (Or.inl (List.mem_cons_self t []))
  obtain ⟨r, hr⟩ := resolve_command_cons_ok host c cs
  unfold ApplicationIsolator.runIsolator
  rw [hcmd, hr]
  simp only []
  cases hprep : ApplicationIsolator.prepareArgsE cfg host pc r f1 f2 with
  | error e =>
    simp only []
    exact ⟨hmem, fun p hp => cleanupFs_removes_tree _ _ _ _ hmem hp⟩
  | ok args =>
    simp only []
    exact ⟨hmem, fun p hp => cleanupFs_removes_tree _ _ _ _ hmem hp⟩

/-- Witness for C9: a concrete run with `tmp_dir = /tmp/mytmp`; after
cleanup both the directory and a file inside it are gone. -/
theorem c9_user_tmp_dir_deleted_witness :
    "/tmp/mytmp" ∈ (ApplicationIsolator.runIsolator
      { appCommand := ["echo"], tmpDir := some "/tmp/mytmp" } hostMin none
      "/tmp/f1" "/tmp/f2" (ApplicationIsolator.ExecOutcome.completed 0)).2.2 ∧
    FilesystemManager.cleanupFs
      (ApplicationIsolator.runIsolator
        { appCommand := ["echo"], tmpDir := some "/tmp/mytmp" } hostMin none
        "/tmp/f1" "/tmp/f2" (ApplicationIsolator.ExecOutcome.completed 0)).2.2
      hostMin.pathExists "/tmp/mytmp/data" = false := by
  have h := c9_user_tmp_dir_deleted
    { appCommand := ["echo"], tmpDir := some "/tmp/mytmp" } hostMin none
    "/tmp/f1" "/tmp/f2" (ApplicationIsolator.ExecOutcome.completed 0)
    "/tmp/mytmp" "echo" [] rfl rfl
  exact ⟨h.1, h.2 "/tmp/mytmp/data" (by decide)⟩

